import Mathlib

/-!
Verification of the hardpotato instrument-scripting layer.

The definitions below are a shallow embedding of the two source modules:
* `Pico` embeds `pypotato/emstatpico.py` (the MethodSCRIPT / millivolt
  dialect generator for the PalmSens Emstat Pico);
* `HP` embeds `hardpotato/potentiostat.py` (the technique dispatcher).

Python floats are modelled as exact rationals (ℚ); Python `int()` is
truncation toward zero; Python `str()` on an integer is `toString` on ℤ;
a raised exception is an `Except.error` / `Option.some` value.
-/

set_option maxRecDepth 100000

/-- Python `int()` applied to a rational: truncation toward zero. -/
def pyint (q : ℚ) : ℤ := Int.tdiv q.num q.den

/-! ### Character-list string helpers (kernel-computable text extraction) -/

/-- `listStartsWith pat l` is true when `pat` is an initial segment of `l`. -/
def listStartsWith : List Char → List Char → Bool
  | [], _ => true
  | _ :: _, [] => false
  | p :: ps, c :: cs => p = c && listStartsWith ps cs

/-- Characters after the first occurrence of `pat`, or `none` if absent. -/
def afterFirst (pat : List Char) : List Char → Option (List Char)
  | [] => none
  | c :: rest =>
    if listStartsWith pat (c :: rest) then some ((c :: rest).drop pat.length)
    else afterFirst pat rest

/-- Characters before the first occurrence of `stop`. -/
def takeUntil (stop : Char) : List Char → List Char
  | [] => []
  | c :: rest => if c = stop then [] else c :: takeUntil stop rest

/-- Split a character list on a separator character. -/
def splitOnChar (sep : Char) : List Char → List (List Char)
  | [] => [[]]
  | c :: rest =>
    match splitOnChar sep rest with
    | [] => if c = sep then [[], []] else [[c]]
    | h :: t => if c = sep then [] :: h :: t else (c :: h) :: t

/-- The lines of a program text (split on newline). -/
def linesOf (s : String) : List String :=
  (splitOnChar (Char.ofNat 10) s.data).map String.mk

/-- The text between the first `nscans(` and the following `)`:
the scan-count literal embedded in a generated sweep loop. -/
def scanCountLiteral (s : String) : Option String :=
  (afterFirst ("nscans(").data s.data).map (fun r => String.mk (takeUntil ')' r))

/-- First line of `s` that starts with `pat`. -/
def firstLineWith (pat : String) (s : String) : Option String :=
  ((linesOf s).filter (fun l => listStartsWith pat.data l.data)).head?

namespace Pico

/-! ### `Info` (emstatpico.py lines 8-38) -/

/-- Instrument minimum potential, volts (emstatpico.py line 16). -/
def E_min : ℚ := -17/10

/-- Instrument maximum potential, volts (emstatpico.py line 17). -/
def E_max : ℚ := 2

/-- The out-of-range error value raised by `Info.limits`. -/
structure LimitError where
  label : String
  units : String
  val : ℚ
  low : ℚ
  high : ℚ
deriving DecidableEq

/-- `Info.limits` (emstatpico.py lines 27-31): raises exactly when
`val < low or val > high`. -/
def limits (val low high : ℚ) (label units : String) : Option LimitError :=
  if val < low ∨ val > high then some ⟨label, units, val, low, high⟩ else none

/-! ### `CV` (emstatpico.py lines 43-108) -/

/-- The caller-supplied CV parameters (floats modelled as ℚ). -/
structure CVParams where
  Eini : ℚ
  Ev1 : ℚ
  Ev2 : ℚ
  Efin : ℚ
  sr : ℚ
  dE : ℚ
  nSweeps : ℤ
  sens : ℚ
deriving DecidableEq

/-- The CV object right after the field assignments of `CV.__init__`
(lines 52-59): scaled integer fields set, `text` still the empty string. -/
structure CVPartial where
  Eini : ℤ
  Ev1 : ℤ
  Ev2 : ℤ
  Efin : ℤ
  sr : ℤ
  dE : ℤ
  nSweeps : ℤ
  text : String
deriving DecidableEq

/-- Lines 52-59 of `CV.__init__`: millivolt scaling by `int(x*1000)` and
`self.text = ''`. -/
def CV.assignFields (p : CVParams) : CVPartial :=
  { Eini := pyint (p.Eini * 1000), Ev1 := pyint (p.Ev1 * 1000),
    Ev2 := pyint (p.Ev2 * 1000), Efin := pyint (p.Efin * 1000),
    sr := pyint (p.sr * 1000), dE := pyint (p.dE * 1000),
    nSweeps := p.nSweeps, text := "" }

/-- `CV.validate` (lines 75-84): first out-of-range potential raises;
the commented-out sr/dE/sens checks are absent. -/
def CV.validate (p : CVParams) : Option LimitError :=
  match limits p.Eini E_min E_max "Eini" "V" with
  | some e => some e
  | none =>
    match limits p.Ev1 E_min E_max "Ev1" "V" with
    | some e => some e
    | none =>
      match limits p.Ev2 E_min E_max "Ev2" "V" with
      | some e => some e
      | none => limits p.Efin E_min E_max "Efin" "V"

/-- The fully constructed CV object (after line 73). -/
structure CVState where
  Eini : ℤ
  Ev1 : ℤ
  Ev2 : ℤ
  Efin : ℤ
  sr : ℤ
  dE : ℤ
  nSweeps : ℤ
  ini : String
  pre_body : String
  body : String
  text : String
deriving DecidableEq

/-- `self.ini` (line 64). -/
def iniStr : String := "e\nvar c\nvar p\nvar a\n"

/-- `self.pre_body` (lines 65-66). -/
def preBodyStr (Eini : ℤ) : String :=
  "set_pgstat_mode 4\nset_autoranging ba 100n 5m" ++
    "\nset_e " ++ toString Eini ++ "m\ncell_on\nwait 2\ntimer_start"

/-- `self.body` (lines 67-72): the sweep loop embeds `nSweeps - 1`. -/
def bodyStr (Eini Ev1 Ev2 dE sr nSweeps : ℤ) : String :=
  "\nmeas_loop_cv p c " ++ toString Eini ++ "m " ++
    toString Ev1 ++ "m " ++
    toString Ev2 ++ "m " ++ toString dE ++ "m " ++ toString sr ++
    "m nscans(" ++ toString (nSweeps - 1) ++ ")\n\tpck_start\n\ttimer_get a" ++
    "\n\tpck_add a\n\tpck_add p\n\tpck_add c\n\tpck_end\nendloop\n" ++
    "on_finished:\ncell_off\n\n"

/-- `CV.__init__` (lines 46-73): assign scaled fields and `text = ''`,
validate the raw arguments, then assemble `ini`, `pre_body`, `body`, `text`.
An `Except.error` is the exception propagating out of the constructor. -/
def CV.mk (p : CVParams) : Except LimitError CVState :=
  match CV.validate p with
  | some e => Except.error e
  | none =>
    let f := CV.assignFields p
    Except.ok
      { Eini := f.Eini, Ev1 := f.Ev1, Ev2 := f.Ev2, Efin := f.Efin,
        sr := f.sr, dE := f.dE, nSweeps := f.nSweeps,
        ini := iniStr, pre_body := preBodyStr f.Eini,
        body := bodyStr f.Eini f.Ev1 f.Ev2 f.dE f.sr f.nSweeps,
        text := iniStr ++ preBodyStr f.Eini ++
          bodyStr f.Eini f.Ev1 f.Ev2 f.dE f.sr f.nSweeps }

/-- `self.pre_body` assigned in `CV.bipot` (lines 93-99): channel 1 is put
in mode 5 (poly_we) at the second potential, then channel 0 is set to
mode 2 before re-issuing autoranging and `set_e Eini`. -/
def bipotPreBodyStr (E Eini : ℤ) : String :=
  "var b\nset_pgstat_chan 1" ++
    "\nset_pgstat_mode 5" ++
    "\nset_poly_we_mode 0" ++
    "\nset_e " ++ toString E ++ "m\nset_autoranging ba 100n 5m" ++
    "\nset_pgstat_chan 0\nset_pgstat_mode 2" ++
    "\nset_autoranging ba 100n 5m\nset_e " ++ toString Eini ++
    "m\ntimer_start\ncell_on"

/-- `self.body` assigned in `CV.bipot` (lines 100-106): the sweep loop is
re-emitted with `nscans(nSweeps)` (not `nSweeps - 1`) plus `poly_we(1 b)`
and a `pck_add b` packet field. -/
def bipotBodyStr (Eini Ev1 Ev2 dE sr nSweeps : ℤ) : String :=
  "\nmeas_loop_cv p c " ++ toString Eini ++ "m " ++
    toString Ev1 ++ "m " ++
    toString Ev2 ++ "m " ++ toString dE ++ "m " ++ toString sr ++
    "m nscans(" ++ toString nSweeps ++ ") poly_we(1 b)\n\t" ++
    "pck_start\n\ttimer_get a" ++
    "\n\tpck_add a\n\tpck_add p\n\tpck_add c\n\tpck_add b\n\t" ++
    "pck_end\nendloop\non_finished:\ncell_off\n\n"

/-- `CV.bipot` (lines 86-108): validate the second potential, then replace
`pre_body`, `body` and `text` on the same object. -/
def CV.bipot (s : CVState) (E sens : ℚ) : Except LimitError CVState :=
  match limits E E_min E_max "E2" "V" with
  | some e => Except.error e
  | none =>
    let Em := pyint (E * 1000)
    Except.ok
      { s with
        pre_body := bipotPreBodyStr Em s.Eini,
        body := bipotBodyStr s.Eini s.Ev1 s.Ev2 s.dE s.sr s.nSweeps,
        text := s.ini ++ bipotPreBodyStr Em s.Eini ++
          bipotBodyStr s.Eini s.Ev1 s.Ev2 s.dE s.sr s.nSweeps }

/-- Generated program text of a CV run, when construction succeeds. -/
def cvTextOf (p : CVParams) : Option String :=
  (CV.mk p).toOption.map (fun s => s.text)

/-- Program text after the bipot extension, when both steps succeed. -/
def cvBipotTextOf (p : CVParams) (E sens : ℚ) : Option String :=
  (CV.mk p).toOption.bind
    (fun s => (CV.bipot s E sens).toOption.map (fun s2 => s2.text))

/-- `pre_body` of a freshly generated CV run. -/
def preBodyOf (p : CVParams) : Option String :=
  (CV.mk p).toOption.map (fun s => s.pre_body)

/-- `pre_body` after the bipot extension. -/
def bipotPreBodyOf (p : CVParams) (E sens : ℚ) : Option String :=
  (CV.mk p).toOption.bind
    (fun s => (CV.bipot s E sens).toOption.map (fun s2 => s2.pre_body))

/-- The spec scenario parameters: Eini=-0.2, Ev1=0.2, Ev2=-0.2, Efin=-0.2,
sr=0.1, dE=0.001, nSweeps=2, sens=1e-6. -/
def pScenario : CVParams :=
  { Eini := -1/5, Ev1 := 1/5, Ev2 := -1/5, Efin := -1/5,
    sr := 1/10, dE := 1/1000, nSweeps := 2, sens := 1/1000000 }

/-- Scenario parameters with an out-of-range initial potential (3 V). -/
def pBad : CVParams := { pScenario with Eini := 3 }

/-- Scenario parameters with Eini = 0.9996 V, a value where truncation
toward zero and rounding of `value * 1000` differ. -/
def pRound : CVParams := { pScenario with Eini := 2499/2500 }

/-- Lines after the first occurrence of the line `marker`. -/
def afterLine (marker : String) : List String → Option (List String)
  | [] => none
  | l :: rest => if l = marker then some rest else afterLine marker rest

/-- The channel-0 section of a bipot preamble: the instruction lines
following `set_pgstat_chan 0`. -/
def chanZeroSection (pre : String) : Option (List String) :=
  afterLine "set_pgstat_chan 0" (linesOf pre)

/-- Claim C1 as stated: the scan-count literal embedded in the sweep loop
equals `nSweeps - 1` both in the plain program and in the program
re-emitted by the bipot extension. -/
abbrev scanClaim (p : CVParams) (E sens : ℚ) : Prop :=
  (cvTextOf p).bind scanCountLiteral = some (toString (p.nSweeps - 1)) ∧
  (cvBipotTextOf p E sens).bind scanCountLiteral = some (toString (p.nSweeps - 1))

/-- Claim C3 as stated: every scaled integer written into the program text
equals `round(value * 1000)`. -/
abbrev roundClaim (p : CVParams) : Prop :=
  (CV.assignFields p).Eini = round (p.Eini * 1000) ∧
  (CV.assignFields p).Ev1 = round (p.Ev1 * 1000) ∧
  (CV.assignFields p).Ev2 = round (p.Ev2 * 1000) ∧
  (CV.assignFields p).Efin = round (p.Efin * 1000) ∧
  (CV.assignFields p).sr = round (p.sr * 1000) ∧
  (CV.assignFields p).dE = round (p.dE * 1000)

/-- Claim C8 as stated: the bipot preamble opens with the channel-1
polystat configuration at the second potential, and its channel-0 section
starts with the same three instructions (pgstat mode, autoranging,
`set_e` at Eini) as the original preamble. -/
abbrev bipotPreambleClaim (p : CVParams) (E sens : ℚ) : Prop :=
  ((bipotPreBodyOf p E sens).map (fun t => (linesOf t).take 6) =
    some ["var b", "set_pgstat_chan 1", "set_pgstat_mode 5",
      "set_poly_we_mode 0", "set_e " ++ toString (pyint (E * 1000)) ++ "m",
      "set_autoranging ba 100n 5m"]) ∧
  (((bipotPreBodyOf p E sens).bind chanZeroSection).map (fun l => l.take 3) =
    (preBodyOf p).map (fun t => (linesOf t).take 3))

/-! ### `LSV` (emstatpico.py lines 171-224) -/

/-- The fully constructed LSV object. -/
structure LSVState where
  Eini : ℤ
  Efin : ℤ
  sr : ℤ
  dE : ℤ
  ini : String
  pre_body : String
  body : String
  text : String
deriving DecidableEq

/-- A Python runtime error: an unresolved name, or the out-of-range
exception raised by `Info.limits`. -/
inductive PyError where
  | nameError (name : String)
  | limitError (e : LimitError)
deriving DecidableEq

/-- The local names bound in the scope of `LSV.bipot` (its parameters;
no local assignment precedes the use of `info` on line 196). -/
def lsvBipotLocalNames : List String := ["self", "E", "sens"]

/-- The module-level names of emstatpico.py. -/
def emstatpicoModuleNames : List String := ["Test", "Info", "CV", "CA", "LSV", "OCP"]

/-- `self.body` assigned in `LSV.bipot` (lines 207-213). -/
def lsvBipotBodyStr (Eini Efin dE sr : ℤ) : String :=
  "\nmeas_loop_lsv p c " ++ toString Eini ++ "m " ++
    toString Efin ++ "m " ++
    toString dE ++ "m " ++ toString sr ++
    "m poly_we(1 b)\n\t" ++
    "pck_start\n\ttimer_get a" ++
    "\n\tpck_add a\n\tpck_add p\n\tpck_add c\n\tpck_add b\n\t" ++
    "pck_end\nendloop\non_finished:\ncell_off\n\n"

/-- `LSV.bipot` (lines 194-215). Unlike `CV.bipot` (line 88) and
`CA.bipot` (line 148), it contains no `info = Info()` line, so evaluating
`info.limits(E, ...)` on line 196 first resolves the name `info`, which is
neither a local nor a module-level name: a `NameError` is raised before
anything else happens. The guarded branch is what the code would do if
`info` were bound, mirroring `CV.bipot`. -/
def LSV.bipot (s : LSVState) (E sens : ℚ) : Except PyError LSVState :=
  if "info" ∈ lsvBipotLocalNames ∨ "info" ∈ emstatpicoModuleNames then
    match limits E E_min E_max "E2" "V" with
    | some e => Except.error (PyError.limitError e)
    | none =>
      let Em := pyint (E * 1000)
      Except.ok
        { s with
          pre_body := bipotPreBodyStr Em s.Eini,
          body := lsvBipotBodyStr s.Eini s.Efin s.dE s.sr,
          text := s.ini ++ bipotPreBodyStr Em s.Eini ++
            lsvBipotBodyStr s.Eini s.Efin s.dE s.sr }
  else Except.error (PyError.nameError "info")

end Pico

namespace HP

/-! ### `potentiostat.py`: the technique dispatcher -/

/-- The dispatcher-level state of a `Technique` object: the technique tag
(set by each subclass), the macro text and the bipotentiostat flag
(`self.bpot`, initialised `False` in `Technique.__init__` line 81). -/
structure TechniqueState where
  technique : String
  text : String
  bpot : Bool
deriving DecidableEq

/-- `BIPOT_TECHNIQUES` (potentiostat.py line 13). -/
def BIPOT_TECHNIQUES : List String := ["CV", "CA", "IT", "LSV", "NPV"]

/-- Outcome of `Technique.bipot`: either the state was updated, or the
unsupported-technique message was printed and nothing changed. -/
inductive BipotResult where
  | updated (s : TechniqueState)
  | reported (s : TechniqueState) (msg : String)
deriving DecidableEq

/-- `Technique.bipot` (potentiostat.py lines 153-159): when the technique
tag is in `BIPOT_TECHNIQUES`, delegate to the wrapped technique object
(whose resulting text is `newText`), copy its text and set the flag;
otherwise print a message and leave everything unchanged. -/
def Technique.bipot (s : TechniqueState) (newText : String) : BipotResult :=
  if s.technique ∈ BIPOT_TECHNIQUES then
    BipotResult.updated { s with text := newText, bpot := true }
  else
    BipotResult.reported s (s.technique ++ " does not have bipotentiostat mode")

/-- A concrete OCP technique state (tag `'OCP'` is set by the dispatcher
`OCP.__init__` at line 254; `bpot` is `False` from line 81). -/
def sOCP : TechniqueState :=
  { technique := "OCP", text := "e\nvar p\nvar a\n", bpot := false }

/-- One step of a Python `__init__` body, as far as instance attributes
are concerned: assign an attribute on `self`, or read one. -/
inductive InitStep where
  | assign (attr : String)
  | read (attr : String)
deriving DecidableEq

/-- Run an attribute-access trace against the set of attributes assigned
so far. Reading an attribute never assigned raises `AttributeError`
(modelled as `Except.error` with the attribute name); the classes involved
define no class-level data attribute named like any read below, so there
is no fallback. -/
def runInit : List InitStep → List String → Except String (List String)
  | [], env => Except.ok env
  | InitStep.assign a :: rest, env => runInit rest (a :: env)
  | InitStep.read a :: rest, env =>
    if a ∈ env then runInit rest env else Except.error a

/-- The self-attribute assignments of `Technique.__init__`
(potentiostat.py lines 70-83), in source order. -/
def techniqueInitSteps : List InitStep :=
  [InitStep.assign "model_pstat", InitStep.assign "path_lib",
   InitStep.assign "port", InitStep.assign "folder",
   InitStep.assign "fileName", InitStep.assign "text",
   InitStep.assign "header", InitStep.assign "technique",
   InitStep.assign "bpot", InitStep.assign "tech", InitStep.assign "data"]

/-- The dispatcher `CV.__init__` (potentiostat.py lines 167-182) as an
attribute-access trace on the fresh object: assign `header` and
`technique` (lines 170-171), then evaluate `"chi" in self.model_pstat`
(line 172) — a read of `model_pstat` before anything assigned it. The
later steps (the emstatpico branch reading `model_pstat` and `folder`,
assigning `tech`, and the `Technique.__init__` call of line 182 that
reads `tech` and finally assigns `model_pstat`) come after that read. -/
def dispatcherCVInitSteps : List InitStep :=
  [InitStep.assign "header", InitStep.assign "technique",
   InitStep.read "model_pstat",
   InitStep.read "model_pstat", InitStep.read "folder",
   InitStep.assign "tech", InitStep.read "tech"] ++ techniqueInitSteps

end HP

/-!
## Helper lemmas
-/

/-- String concatenation is associative. -/
theorem strAppendAssoc (a b c : String) : (a ++ b) ++ c = a ++ (b ++ c) := by
  obtain ⟨as⟩ := a
  obtain ⟨bs⟩ := b
  obtain ⟨cs⟩ := c
  exact congrArg String.mk (List.append_assoc as bs cs)

/-- `Info.limits` accepts exactly the values inside `[low, high]`. -/
theorem Pico.limits_eq_none_iff (val low high : ℚ) (label units : String) :
    Pico.limits val low high label units = none ↔
      (low ≤ val ∧ val ≤ high) := by
  unfold Pico.limits
  split_ifs with h
  · simp only [reduceCtorEq, false_iff, not_and]
    rcases h with h | h
    · intro h1
      exact absurd h1 (not_le.mpr h)
    · intro _ h2
      exact absurd h2 (not_le.mpr h)
  · push_neg at h
    simp [h]

/-- `CV.validate` succeeds exactly when all four potentials are within
the instrument envelope. -/
theorem Pico.validate_none_iff (p : Pico.CVParams) :
    Pico.CV.validate p = none ↔
      ((Pico.E_min ≤ p.Eini ∧ p.Eini ≤ Pico.E_max) ∧
       (Pico.E_min ≤ p.Ev1 ∧ p.Ev1 ≤ Pico.E_max) ∧
       (Pico.E_min ≤ p.Ev2 ∧ p.Ev2 ≤ Pico.E_max) ∧
       (Pico.E_min ≤ p.Efin ∧ p.Efin ≤ Pico.E_max)) := by
  unfold Pico.CV.validate Pico.limits
  split_ifs with h1 h2 h3 h4 <;>
    constructor <;>
    intro hc <;>
    simp_all <;>
    (try obtain ⟨⟨a1, a2⟩, ⟨b1, b2⟩, ⟨c1, c2⟩, d1, d2⟩ := hc) <;>
    first
      | tauto
      | linarith
      | (cases h1 <;> linarith)
      | (cases h2 <;> linarith)
      | (cases h3 <;> linarith)
      | (cases h4 <;> linarith)

/-!
## Claim theorems
-/

/-- C4: Generating a CV program in the millivolt dialect with Eini=-0.2,
Ev1=0.2, Ev2=-0.2, Efin=-0.2, sr=0.1, dE=0.001, nSweeps=2 produces a loop
instruction whose embedded scan-count literal is 1 (nSweeps-1) and whose
embedded potential/step/rate literals are -200m, 200m, -200m, 1m, 100m. -/
theorem Pico.cv_scenario_loop_line :
    (Pico.cvTextOf Pico.pScenario).bind
        (fun t => firstLineWith "meas_loop_cv" t) =
      some "meas_loop_cv p c -200m 200m -200m 1m 100m nscans(1)" ∧
    (Pico.cvTextOf Pico.pScenario).bind scanCountLiteral = some "1" := by
  constructor <;> with_unfolding_all decide

/-- C2: `Info.limits` raises an out-of-range error iff the value lies
strictly outside `[low, high]`; a value exactly equal to `E_min` or
`E_max` is accepted (inclusive bounds), and a value below `E_min`
(here by 0.001 V) is rejected. -/
theorem Pico.limits_strictly_outside_iff :
    (∀ (val low high : ℚ) (label units : String),
      Pico.limits val low high label units ≠ none ↔
        ¬(low ≤ val ∧ val ≤ high)) ∧
    Pico.limits Pico.E_min Pico.E_min Pico.E_max "Eini" "V" = none ∧
    Pico.limits Pico.E_max Pico.E_min Pico.E_max "Eini" "V" = none ∧
    Pico.limits (Pico.E_min - 1/1000) Pico.E_min Pico.E_max "Eini" "V" ≠ none :=
  ⟨fun val low high label units =>
      not_congr (Pico.limits_eq_none_iff val low high label units),
    by with_unfolding_all decide,
    by with_unfolding_all decide,
    by with_unfolding_all decide⟩

/-- C7: when any CV potential lies outside the instrument envelope, the
constructor raises, and at the moment of failure the object's `text`
attribute is still the empty string: no partial script has been emitted. -/
theorem Pico.cv_invalid_no_partial_text (p : Pico.CVParams)
    (h : p.Eini < Pico.E_min ∨ Pico.E_max < p.Eini ∨
         p.Ev1 < Pico.E_min ∨ Pico.E_max < p.Ev1 ∨
         p.Ev2 < Pico.E_min ∨ Pico.E_max < p.Ev2 ∨
         p.Efin < Pico.E_min ∨ Pico.E_max < p.Efin) :
    (∃ e, Pico.CV.mk p = Except.error e) ∧
      (Pico.CV.assignFields p).text = "" := by
  refine ⟨?_, rfl⟩
  cases hv : Pico.CV.validate p with
  | some e => exact ⟨e, by simp [Pico.CV.mk, hv]⟩
  | none =>
    rw [Pico.validate_none_iff] at hv
    obtain ⟨⟨a1, a2⟩, ⟨b1, b2⟩, ⟨c1, c2⟩, d1, d2⟩ := hv
    rcases h with h | h | h | h | h | h | h | h <;> linarith

/-- Witness for C7, at Eini = 3 V (above `E_max`). -/
theorem Pico.cv_invalid_no_partial_text_witness :
    (∃ e, Pico.CV.mk Pico.pBad = Except.error e) ∧
      (Pico.CV.assignFields Pico.pBad).text = "" :=
  Pico.cv_invalid_no_partial_text Pico.pBad (by with_unfolding_all decide)

/-- C9: script generation is deterministic — identical parameters give
identical program text — and generation has no failure mode of its own
once validation has passed. -/
theorem Pico.cv_generation_deterministic (p q : Pico.CVParams) (hpq : p = q) :
    Pico.cvTextOf p = Pico.cvTextOf q ∧
      (Pico.CV.validate p = none → ∃ s, Pico.CV.mk p = Except.ok s) := by
  subst hpq
  refine ⟨rfl, fun hv => ?_⟩
  unfold Pico.CV.mk
  rw [hv]
  exact ⟨_, rfl⟩

/-- Witness for C9, at the scenario parameters. -/
theorem Pico.cv_generation_deterministic_witness :
    Pico.cvTextOf Pico.pScenario = Pico.cvTextOf Pico.pScenario ∧
      ∃ s, Pico.CV.mk Pico.pScenario = Except.ok s :=
  ⟨(Pico.cv_generation_deterministic Pico.pScenario Pico.pScenario rfl).1,
   (Pico.cv_generation_deterministic Pico.pScenario Pico.pScenario rfl).2
     (by with_unfolding_all decide)⟩

/-- C5: invoking the bipot extension on an OCP technique reports the
unsupported-technique message as an ordinary value (no exception) and
hands back the state unchanged: the program text is untouched and the
bipotentiostat flag is still `False`. -/
theorem HP.technique_bipot_ocp_reported (s : HP.TechniqueState)
    (newText : String) (h1 : s.technique = "OCP") (h2 : s.bpot = false) :
    HP.Technique.bipot s newText =
      HP.BipotResult.reported s "OCP does not have bipotentiostat mode" ∧
      s.bpot = false := by
  refine ⟨?_, h2⟩
  unfold HP.Technique.bipot
  rw [h1]
  rfl

/-- Witness for C5, at a concrete OCP technique state. -/
theorem HP.technique_bipot_ocp_reported_witness :
    HP.Technique.bipot HP.sOCP "newtext" =
      HP.BipotResult.reported HP.sOCP "OCP does not have bipotentiostat mode" ∧
      HP.sOCP.bpot = false :=
  HP.technique_bipot_ocp_reported HP.sOCP "newtext" rfl rfl

/-- C10: the dispatcher-level `CV.__init__` reads `model_pstat` on the
fresh object before any step has assigned it — the only assignment is in
`Technique.__init__`, which runs later — so every construction through
the dispatcher fails with an attribute error on `model_pstat`, before
validation or generation is reached. -/
theorem HP.dispatcher_cv_reads_model_pstat_unset :
    HP.runInit HP.dispatcherCVInitSteps [] = Except.error "model_pstat" := rfl

/-- C6 (code bug in the source): `LSV.bipot` raises
`NameError: name 'info' is not defined` for every LSV state and every
second potential — in-range or not — because the `info = Info()` line
present in `CV.bipot` and `CA.bipot` is missing here. The documented
behaviour (validate the potential, then emit the dual-channel program)
is unreachable. -/
theorem Pico.lsv_bipot_name_error (s : Pico.LSVState) (E sens : ℚ) :
    Pico.LSV.bipot s E sens = Except.error (Pico.PyError.nameError "info") := rfl

/-- C1 fails as stated: at the scenario parameters (nSweeps = 2) with
second potential 0 V, the loop re-emitted by the bipot extension embeds
scan-count literal `2` (= nSweeps), not `1` (= nSweeps - 1). -/
theorem Pico.cv_bipot_scan_count_claim_false :
    (Pico.cvBipotTextOf Pico.pScenario 0 (1/1000000)).bind scanCountLiteral =
      some "2" ∧
    ¬ Pico.scanClaim Pico.pScenario 0 (1/1000000) := by
  constructor <;> with_unfolding_all decide

/-- C1 amended: the plain sweep loop embeds `nSweeps - 1` as its
scan-count literal, while the loop re-emitted by the bipot extension
embeds `nSweeps` itself; exhibited on the generated texts at the
scenario parameters. -/
theorem Pico.cv_scan_count_literals (Eini Ev1 Ev2 dE sr nSweeps : ℤ) :
    (Pico.bodyStr Eini Ev1 Ev2 dE sr nSweeps =
      "\nmeas_loop_cv p c " ++ toString Eini ++ "m " ++ toString Ev1 ++
        "m " ++ toString Ev2 ++ "m " ++ toString dE ++ "m " ++ toString sr ++
        "m nscans(" ++ toString (nSweeps - 1) ++
        ")\n\tpck_start\n\ttimer_get a\n\tpck_add a\n\tpck_add p\n\tpck_add c\n\tpck_end\nendloop\non_finished:\ncell_off\n\n") ∧
    (Pico.bipotBodyStr Eini Ev1 Ev2 dE sr nSweeps =
      "\nmeas_loop_cv p c " ++ toString Eini ++ "m " ++ toString Ev1 ++
        "m " ++ toString Ev2 ++ "m " ++ toString dE ++ "m " ++ toString sr ++
        "m nscans(" ++ toString nSweeps ++
        ") poly_we(1 b)\n\tpck_start\n\ttimer_get a\n\tpck_add a\n\tpck_add p\n\tpck_add c\n\tpck_add b\n\tpck_end\nendloop\non_finished:\ncell_off\n\n") ∧
    (Pico.cvTextOf Pico.pScenario).bind scanCountLiteral =
      some (toString (Pico.pScenario.nSweeps - 1)) ∧
    (Pico.cvBipotTextOf Pico.pScenario 0 (1/1000000)).bind scanCountLiteral =
      some (toString Pico.pScenario.nSweeps) := by
  refine ⟨?_, ?_, ?_, ?_⟩
  · unfold Pico.bodyStr
    simp only [strAppendAssoc]
    rfl
  · unfold Pico.bipotBodyStr
    simp only [strAppendAssoc]
    rfl
  · with_unfolding_all decide
  · with_unfolding_all decide

/-- C3 fails as stated: with Eini = 0.9996 V the embedded literal is
`999` = `int(0.9996 * 1000)` (truncation toward zero), whereas
`round(0.9996 * 1000)` is `1000`. -/
theorem Pico.cv_round_claim_false :
    (Pico.CV.assignFields Pico.pRound).Eini = 999 ∧
    round (Pico.pRound.Eini * 1000) = 1000 ∧
    ¬ Pico.roundClaim Pico.pRound := by
  have e1 : (Pico.CV.assignFields Pico.pRound).Eini = 999 := by
    with_unfolding_all decide
  have e2 : round (Pico.pRound.Eini * 1000) = 1000 := by
    show round ((2499/2500 : ℚ) * 1000) = 1000
    rw [round_eq]
    norm_num
  refine ⟨e1, e2, fun h => ?_⟩
  have h1 := h.1
  rw [e1, e2] at h1
  exact absurd h1 (by decide)

/-- C3 amended: the integer literal embedded for each physical value is
`int(value * 1000)` — truncation toward zero — emitted followed by the
unit suffix `m`; truncation agrees with `round(value * 1000)` whenever
`value * 1000` is exactly an integer (every exact millivolt value). -/
theorem Pico.cv_millivolt_literals_truncate (p : Pico.CVParams) :
    ((Pico.CV.assignFields p).Eini = pyint (p.Eini * 1000) ∧
     (Pico.CV.assignFields p).Ev1 = pyint (p.Ev1 * 1000) ∧
     (Pico.CV.assignFields p).Ev2 = pyint (p.Ev2 * 1000) ∧
     (Pico.CV.assignFields p).Efin = pyint (p.Efin * 1000) ∧
     (Pico.CV.assignFields p).sr = pyint (p.sr * 1000) ∧
     (Pico.CV.assignFields p).dE = pyint (p.dE * 1000)) ∧
    Pico.preBodyStr (Pico.CV.assignFields p).Eini =
      "set_pgstat_mode 4\nset_autoranging ba 100n 5m\nset_e " ++
        toString (Pico.CV.assignFields p).Eini ++
        "m\ncell_on\nwait 2\ntimer_start" ∧
    (∀ n : ℤ, p.Eini * 1000 = (n : ℚ) →
      pyint (p.Eini * 1000) = round (p.Eini * 1000)) := by
  refine ⟨⟨rfl, rfl, rfl, rfl, rfl, rfl⟩, ?_, ?_⟩
  · unfold Pico.preBodyStr
    simp only [strAppendAssoc]
    rfl
  · intro n hn
    rw [hn, round_intCast]
    unfold pyint
    rw [Rat.num_intCast, Rat.den_intCast]
    simp

/-- Witness for the amended C3, at the scenario parameters
(Eini = -0.2 V, so Eini * 1000 is the integer -200). -/
theorem Pico.cv_millivolt_literals_truncate_witness :
    (Pico.CV.assignFields Pico.pScenario).Eini =
      pyint (Pico.pScenario.Eini * 1000) ∧
    pyint (Pico.pScenario.Eini * 1000) = round (Pico.pScenario.Eini * 1000) :=
  ⟨(Pico.cv_millivolt_literals_truncate Pico.pScenario).1.1,
   (Pico.cv_millivolt_literals_truncate Pico.pScenario).2.2 (-200)
     (by with_unfolding_all decide)⟩

/-- C8 fails as stated: at the scenario parameters with second potential
0 V, the channel-0 section of the bipot preamble opens with
`set_pgstat_mode 2`, while the original preamble opened with
`set_pgstat_mode 4`: the pgstat-mode instruction is not restored. -/
theorem Pico.cv_bipot_preamble_claim_false :
    ((Pico.bipotPreBodyOf Pico.pScenario 0 (1/1000000)).bind
        Pico.chanZeroSection).map (fun l => l.take 1) =
      some ["set_pgstat_mode 2"] ∧
    (Pico.preBodyOf Pico.pScenario).map (fun t => (linesOf t).take 1) =
      some ["set_pgstat_mode 4"] ∧
    ¬ Pico.bipotPreambleClaim Pico.pScenario 0 (1/1000000) := by
  refine ⟨?_, ?_, ?_⟩ <;> with_unfolding_all decide

/-- C8 amended: the new preamble configures channel 1 in polystat mode
(mode 5, poly_we mode 0) with `set_e` at the second potential, then
switches to channel 0 and re-issues the same autoranging and
`set_e`-at-Eini instructions as the original preamble — but under
`set_pgstat_mode 2`, whereas the original preamble used mode 4. -/
theorem Pico.cv_bipot_preamble_restores (p : Pico.CVParams) (E sens : ℚ)
    (hp : Pico.CV.validate p = none)
    (hE : Pico.limits E Pico.E_min Pico.E_max "E2" "V" = none) :
    Pico.preBodyOf p =
      some ("set_pgstat_mode 4\n" ++
        ("set_autoranging ba 100n 5m\nset_e " ++
          toString (pyint (p.Eini * 1000)) ++ "m") ++
        "\ncell_on\nwait 2\ntimer_start") ∧
    Pico.bipotPreBodyOf p E sens =
      some ("var b\nset_pgstat_chan 1\nset_pgstat_mode 5\nset_poly_we_mode 0\nset_e " ++
        toString (pyint (E * 1000)) ++
        "m\nset_autoranging ba 100n 5m\nset_pgstat_chan 0\nset_pgstat_mode 2\n" ++
        ("set_autoranging ba 100n 5m\nset_e " ++
          toString (pyint (p.Eini * 1000)) ++ "m") ++
        "\ntimer_start\ncell_on") := by
  have h1 : Pico.preBodyOf p =
      some (Pico.preBodyStr (pyint (p.Eini * 1000))) := by
    unfold Pico.preBodyOf Pico.CV.mk
    rw [hp]
    rfl
  have h2 : Pico.bipotPreBodyOf p E sens =
      some (Pico.bipotPreBodyStr (pyint (E * 1000)) (pyint (p.Eini * 1000))) := by
    unfold Pico.bipotPreBodyOf Pico.CV.mk Pico.CV.bipot
    rw [hp, hE]
    rfl
  refine ⟨?_, ?_⟩
  · rw [h1]
    refine congrArg some ?_
    unfold Pico.preBodyStr
    simp only [strAppendAssoc]
    rfl
  · rw [h2]
    refine congrArg some ?_
    unfold Pico.bipotPreBodyStr
    simp only [strAppendAssoc]
    rfl

/-- Witness for the amended C8, at the scenario parameters with second
potential 0 V. -/
theorem Pico.cv_bipot_preamble_restores_witness :
    Pico.preBodyOf Pico.pScenario =
      some ("set_pgstat_mode 4\n" ++
        ("set_autoranging ba 100n 5m\nset_e " ++
          toString (pyint (Pico.pScenario.Eini * 1000)) ++ "m") ++
        "\ncell_on\nwait 2\ntimer_start") ∧
    Pico.bipotPreBodyOf Pico.pScenario 0 (1/1000000) =
      some ("var b\nset_pgstat_chan 1\nset_pgstat_mode 5\nset_poly_we_mode 0\nset_e " ++
        toString (pyint ((0 : ℚ) * 1000)) ++
        "m\nset_autoranging ba 100n 5m\nset_pgstat_chan 0\nset_pgstat_mode 2\n" ++
        ("set_autoranging ba 100n 5m\nset_e " ++
          toString (pyint (Pico.pScenario.Eini * 1000)) ++ "m") ++
        "\ntimer_start\ncell_on") :=
  Pico.cv_bipot_preamble_restores Pico.pScenario 0 (1/1000000)
    (by with_unfolding_all decide) (by with_unfolding_all decide)
